import Mathlib

/-!
Shallow embedding of the concurrent multi-task generation orchestrator of
`src/index.tsx` (the "AI Child Face Predictor" app), together with theorems
settling the behavioural claims about it.

The embedding mirrors the source:
* `PredictionResult`, `UploadedImage` are the two record types of the source.
* The React component state (`fatherImg`, `motherImg`, `fatherDominance`,
  `generatingTarget`, `error`, `results`) becomes the structure `AppState`.
* `generatePrediction` models the synchronous prefix of the source function of
  the same name (precondition checks, `setGeneratingTarget`, `setError(null)`,
  the `setResults` call that moves the target gender's tasks to loading, and
  the computation of the spawned `tasks` list).  The spawned items are taken
  from the pre-run `results` binding, exactly as the source closure does.
* Each per-task completion (`generateVariation`'s success and catch paths)
  becomes `resolveTask` applied via `List.set`, matching
  `newResults[index] = ...` on a copy of the current array.
* `Promise.allSettled` followed by `setGeneratingTarget(null)` becomes the
  `finish` step of the small-step system `Step` below.
-/

namespace ChildFace

/-- Gender of a prediction task: `'boy' | 'girl'` in the source. -/
inductive Gender where
  | boy
  | girl
deriving DecidableEq

/-- One slot of the `results` state array (interface `PredictionResult`):
`gender`, `age`, optional `imageUrl`, the `loading` flag and optional
`error` message. -/
structure PredictionResult where
  gender : Gender
  age : Nat
  imageUrl : Option String := none
  loading : Bool
  error : Option String := none
deriving DecidableEq

/-- An uploaded parent image (interface `UploadedImage`); the orchestrator
only reads `base64Data` and `mimeType`, so the `file` and `preview` fields
are dropped. -/
structure UploadedImage where
  base64Data : String
  mimeType : String
deriving DecidableEq

/-- Derived task status, following the rendering priority of `ResultCard`:
`loading` is checked first, then `error` (failed), then `imageUrl` (ready),
otherwise the task is idle. -/
inductive Status where
  | idle
  | loading
  | ready
  | failed
deriving DecidableEq

/-- Status of a task record, with `ResultCard`'s priority order. -/
def status (r : PredictionResult) : Status :=
  if r.loading then .loading
  else
    match r.error with
    | some _ => .failed
    | none =>
      match r.imageUrl with
      | some _ => .ready
      | none => .idle

/-- The initial `results` state: six tasks, two genders times ages 5, 15, 25,
all idle (`loading: false`, no image, no error). -/
def initialResults : List PredictionResult :=
  [ { gender := .boy, age := 5, loading := false },
    { gender := .boy, age := 15, loading := false },
    { gender := .boy, age := 25, loading := false },
    { gender := .girl, age := 5, loading := false },
    { gender := .girl, age := 15, loading := false },
    { gender := .girl, age := 25, loading := false } ]

/-- The component state of `App` that the orchestrator reads and writes. -/
structure AppState where
  fatherImg : Option UploadedImage
  motherImg : Option UploadedImage
  fatherDominance : Nat
  generatingTarget : Option Gender
  error : Option String
  results : List PredictionResult
deriving DecidableEq

/-- Run-level error kinds of the spec; the source signals them through the
`error` banner strings checked in `generatePrediction`'s guards. -/
inductive GenError where
  | missingInput
  | missingCredential
deriving DecidableEq

/-- Tasks spawned by a run: `results.map((item, index) => ({item, index}))
.filter(({item}) => item.gender === targetGender)`, as (index, item) pairs. -/
def spawnedTasks (rs : List PredictionResult) (g : Gender) :
    List (Nat × PredictionResult) :=
  rs.enum.filter fun p => p.2.gender = g

/-- The `setResults` call at the start of a run: every task of the target
gender is moved to loading with `error` and `imageUrl` cleared; other tasks
are returned unchanged. -/
def beginResults (g : Gender) (rs : List PredictionResult) :
    List PredictionResult :=
  rs.map fun r =>
    if r.gender = g then { r with loading := true, error := none, imageUrl := none }
    else r

/-- Synchronous prefix of `generatePrediction(targetGender)`.  On a guard
failure the returned state only has the `error` banner set (the early
`setError(...); return`).  Otherwise the busy flag is set, the banner is
cleared, the gender's tasks are moved to loading, and the spawned task list
is computed from the pre-run `results` closure value. -/
def generatePrediction (hasKey : Bool) (s : AppState) (g : Gender) :
    Except (GenError × AppState) (AppState × List (Nat × PredictionResult)) :=
  if s.fatherImg = none ∨ s.motherImg = none then
    .error (.missingInput,
      { s with error := some "Please upload photos of both parents first." })
  else if hasKey = false then
    .error (.missingCredential, { s with error := some "API Key is missing." })
  else
    .ok ({ s with
            generatingTarget := some g,
            error := none,
            results := beginResults g s.results },
         spawnedTasks s.results g)

/-- Successful completion of one `generateVariation`: the source spreads the
captured pre-run `item` (not the current record), clears `loading` and sets
`imageUrl`; note that `item.error` is NOT cleared by the spread. -/
def resolveOk (item : PredictionResult) (url : String) : PredictionResult :=
  { item with loading := false, imageUrl := some url }

/-- Catch path of `generateVariation`: spread of the captured pre-run `item`
with `loading` cleared and the fixed error string set; `item.imageUrl` is NOT
cleared by the spread. -/
def resolveFail (item : PredictionResult) : PredictionResult :=
  { item with loading := false, error := some "Failed to generate" }

/-- One task completion, abstracted over its outcome: `some url` resolves
through the success path, `none` through the catch path. -/
def resolveTask (item : PredictionResult) (out : Option String) :
    PredictionResult :=
  match out with
  | some url => resolveOk item url
  | none => resolveFail item

/-- The `setResults` functional update performed by either completion path:
copy the current array and overwrite slot `index` with the resolved record. -/
def applyResolution (rs : List PredictionResult) (index : Nat)
    (item : PredictionResult) (out : Option String) : List PredictionResult :=
  rs.set index (resolveTask item out)

/-! ### Generation Client response model and parsing -/

/-- An `inlineData` part of a client response: MIME type plus base64 data. -/
structure InlineData where
  mimeType : String
  data : String
deriving DecidableEq

/-- One part of a response candidate's content: possibly `inlineData`,
possibly `text`. -/
structure ResponsePart where
  inlineData : Option InlineData := none
  text : Option String := none
deriving DecidableEq

/-- Content of a response candidate; `parts` may be absent. -/
structure Content where
  parts : Option (List ResponsePart)
deriving DecidableEq

/-- One candidate of a client response. -/
structure Candidate where
  content : Content
deriving DecidableEq

/-- A Generation Client response; the `candidates` field may be absent. -/
structure GenResponse where
  candidates : Option (List Candidate)
deriving DecidableEq

/-- The `for (const part of parts)` loop of `generateVariation`: starting
from `generatedUrl = ''`, the first part carrying `inlineData` sets the URL
to the hardcoded `data:image/png;base64,` prefix followed by that part's
data, and the loop breaks. -/
def findUrl : List ResponsePart → String
  | [] => ""
  | p :: rest =>
    match p.inlineData with
    | some d => "data:image/png;base64," ++ d.data
    | none => findUrl rest

/-- Response parsing of `generateVariation`: the guard
`response.candidates && response.candidates[0].content.parts` leaves
`generatedUrl` empty when `candidates` is absent or `parts` is absent;
an empty `candidates` array (where `candidates[0].content` throws and lands
in the catch) also yields the failure outcome, represented here by `""`. -/
def parseImageUrl (r : GenResponse) : String :=
  match r.candidates with
  | some (c :: _) =>
    match c.content.parts with
    | some parts => findUrl parts
    | none => ""
  | _ => ""

/-- Outcome of one Generation Client call as seen by `generateVariation`:
either a response object or a thrown client error with its message. -/
inductive ClientOutcome where
  | ok : GenResponse → ClientOutcome
  | err : String → ClientOutcome
deriving DecidableEq

/-- Net outcome of `generateVariation` for one task: `some url` iff the call
returned and the parsed URL is non-empty (otherwise `throw new Error("No
image generated")` or the client error lands in the catch path). -/
def variationOutcome (c : ClientOutcome) : Option String :=
  match c with
  | .err _ => none
  | .ok r =>
    let url := parseImageUrl r
    if url = "" then none else some url

/-! ### Instruction (prompt) construction -/

/-- Gender noun selection of `generateVariation`:
`item.gender === 'boy' ? (item.age > 18 ? 'man' : 'boy')
: (item.age > 18 ? 'woman' : 'girl')`. -/
def genderTerm (g : Gender) (age : Nat) : String :=
  match g with
  | .boy => if 18 < age then "man" else "boy"
  | .girl => if 18 < age then "woman" else "girl"

/-- Father percentage used in the prompt: the blend weight itself. -/
def fatherPct (fatherDominance : Nat) : Nat := fatherDominance

/-- Mother percentage used in the prompt: `100 - fatherDominance` (the
slider constrains the weight to 0..100, where the natural subtraction agrees
with the source's integer subtraction). -/
def motherPct (fatherDominance : Nat) : Nat := 100 - fatherDominance

/-- The prompt template literal of `generateVariation`, as a function of the
four interpolated strings (age, gender noun, father percentage, mother
percentage); line breaks and indentation of the source literal are kept. -/
def promptTemplate (ageStr term fatherStr motherStr : String) : String :=
  "\n          Generate a photorealistic portrait of a " ++ ageStr ++
  "-year-old " ++ term ++
  ".\n          This person is the hypothetical child of the two people in the provided images.\n          \n          Blend the physical facial features of the first image (father) and the second image (mother).\n          The facial structure and features should resemble the father by approximately " ++
  fatherStr ++ "% and the mother by approximately " ++ motherStr ++
  "%.\n          \n          Ensure the image is high quality, clear, and has a neutral background. \n          Focus on facial accuracy and genetic blending.\n        "

/-- The instruction text `generateVariation` sends for a task, built from the
task's age and gender and the run's blend weight. -/
def prompt (g : Gender) (age : Nat) (fatherDominance : Nat) : String :=
  promptTemplate (toString age) (genderTerm g age)
    (toString (fatherPct fatherDominance)) (toString (motherPct fatherDominance))

/-- Instructions sent for one run: each spawned task's prompt is built from
that task's captured `item` and the `fatherDominance` closure value read at
run start. -/
def instructionsSent (s : AppState) (g : Gender) : List String :=
  (spawnedTasks s.results g).map fun p => prompt p.2.gender p.2.age s.fatherDominance

/-! ### Whole-run semantics and the small-step system -/

/-- Result array after a run's begin phase followed by a list of completion
events, each event carrying the slot index, the captured pre-run item and
the outcome.  The event list stands for an arbitrary interleaving prefix or
for a completed run, depending on the theorems' hypotheses. -/
def runResults (s : AppState) (g : Gender)
    (events : List (Nat × PredictionResult × Option String)) :
    List PredictionResult :=
  events.foldl (fun rs e => applyResolution rs e.1 e.2.1 e.2.2)
    (beginResults g s.results)

/-- Full sequential run of `generatePrediction`: guards, begin phase, all
three completions (in spawn order, outcomes given per slot index), then
`setGeneratingTarget(null)` after `Promise.allSettled`.  On a guard failure
the banner-only error state is returned. -/
def runOnce (hasKey : Bool) (s : AppState) (g : Gender)
    (outs : Nat → Option String) : AppState :=
  match generatePrediction hasKey s g with
  | .error (_, sErr) => sErr
  | .ok (sStarted, spawned) =>
    { sStarted with
        generatingTarget := none,
        results := (spawned.map fun p => (p.1, p.2, outs p.1)).foldl
          (fun rs e => applyResolution rs e.1 e.2.1 e.2.2) sStarted.results }

/-- Disabled predicate of the "Generate Son" button:
`disabled={!!generatingTarget || !fatherImg || !motherImg}`. -/
def sonButtonDisabled (s : AppState) : Bool :=
  s.generatingTarget.isSome || s.fatherImg.isNone || s.motherImg.isNone

/-- Disabled predicate of the "Generate Daughter" button:
`disabled={!!generatingTarget || !fatherImg || !motherImg}`. -/
def daughterButtonDisabled (s : AppState) : Bool :=
  s.generatingTarget.isSome || s.fatherImg.isNone || s.motherImg.isNone

/-- Disabled predicate of the trigger for a given gender. -/
def triggerDisabled (g : Gender) (s : AppState) : Bool :=
  match g with
  | .boy => sonButtonDisabled s
  | .girl => daughterButtonDisabled s

/-- One in-flight Generation Client call: the run's gender, the slot index,
the captured pre-run item, and the predetermined outcome of the call. -/
structure PendingCall where
  g : Gender
  index : Nat
  item : PredictionResult
  out : Option String
deriving DecidableEq

/-- System state: the component state plus the multiset (as a list) of
in-flight calls not yet reconciled. -/
structure SysState where
  app : AppState
  pending : List PendingCall
deriving DecidableEq

/-- Small-step transition relation of the app.  `invoke` is a trigger click
(only possible while the button is enabled) whose synchronous prefix commits
atomically (React batches the updates of one synchronous handler segment);
`resolve` reconciles one in-flight call; `finish` is the resumption after
`Promise.allSettled`, which clears the busy flag once no call of the run is
in flight.  `setWeight`, `uploadFather` and `uploadMother` are the slider
and file-input handlers. -/
inductive Step (hasKey : Bool) : SysState → SysState → Prop where
  | invoke (s : SysState) (g : Gender) (outs : Nat → Option String)
      (app' : AppState) (spawned : List (Nat × PredictionResult))
      (henabled : triggerDisabled g s.app = false)
      (hrun : generatePrediction hasKey s.app g = .ok (app', spawned)) :
      Step hasKey s
        ⟨app', s.pending ++ spawned.map fun p => ⟨g, p.1, p.2, outs p.1⟩⟩
  | invokeRejected (s : SysState) (g : Gender) (e : GenError) (app' : AppState)
      (henabled : triggerDisabled g s.app = false)
      (hrun : generatePrediction hasKey s.app g = .error (e, app')) :
      Step hasKey s ⟨app', s.pending⟩
  | resolve (app : AppState) (l₁ l₂ : List PendingCall) (e : PendingCall) :
      Step hasKey ⟨app, l₁ ++ e :: l₂⟩
        ⟨{ app with results := applyResolution app.results e.index e.item e.out },
         l₁ ++ l₂⟩
  | finish (app : AppState) (g : Gender)
      (hbusy : app.generatingTarget = some g) :
      Step hasKey ⟨app, []⟩ ⟨{ app with generatingTarget := none }, []⟩
  | setWeight (app : AppState) (p : List PendingCall) (w : Nat) (hw : w ≤ 100) :
      Step hasKey ⟨app, p⟩ ⟨{ app with fatherDominance := w }, p⟩
  | uploadFather (app : AppState) (p : List PendingCall) (img : UploadedImage) :
      Step hasKey ⟨app, p⟩ ⟨{ app with fatherImg := some img, error := none }, p⟩
  | uploadMother (app : AppState) (p : List PendingCall) (img : UploadedImage) :
      Step hasKey ⟨app, p⟩ ⟨{ app with motherImg := some img, error := none }, p⟩

/-- Reachability from a given system state through `Step`. -/
def Reach (hasKey : Bool) : SysState → SysState → Prop :=
  Relation.ReflTransGen (Step hasKey)

/-- A concrete post-upload starting state: both parents uploaded, default
weight 50, no run in flight, all tasks idle. -/
def initState : SysState :=
  ⟨{ fatherImg := some ⟨"FATHERB64", "image/jpeg"⟩,
     motherImg := some ⟨"MOTHERB64", "image/jpeg"⟩,
     fatherDominance := 50,
     generatingTarget := none,
     error := none,
     results := initialResults }, []⟩

/-! ### Shared concrete states and helper vocabulary -/

/-- The post-upload state with a boy run marked in flight. -/
def busyBoyState : AppState :=
  { initState.app with generatingTarget := some Gender.boy }

/-- The post-upload state with the mother image missing. -/
def noMotherState : AppState :=
  { initState.app with motherImg := none }

/-- Adult gender noun of the spec ("man"/"woman"). -/
def adultTerm : Gender → String
  | .boy => "man"
  | .girl => "woman"

/-- Child gender noun of the spec ("boy"/"girl"). -/
def childTerm : Gender → String
  | .boy => "boy"
  | .girl => "girl"

/-- State after a boy run in which all three calls failed, then a second boy
run in which all three calls succeeded. -/
def c1SecondRunState : AppState :=
  runOnce true (runOnce true initState.app Gender.boy fun _ => none)
    Gender.boy fun _ => some "data:image/png;base64,IMG2"

/-- The record the second run leaves in slot 0 (boy, age 5). -/
def c1BadRecord : PredictionResult :=
  { gender := Gender.boy, age := 5,
    imageUrl := some "data:image/png;base64,IMG2",
    loading := false,
    error := some "Failed to generate" }

/-! ### Helper lemmas about the run machinery -/

/-- Membership in the spawned task list characterises exactly the slots of
the target gender. -/
theorem mem_spawnedTasks {rs : List PredictionResult} {g : Gender}
    {i : Nat} {item : PredictionResult} :
    (i, item) ∈ spawnedTasks rs g ↔ rs[i]? = some item ∧ item.gender = g := by
  simp [spawnedTasks, List.mem_filter, List.mk_mem_enum_iff_getElem?]

/-- The slot indices of the spawned task list are pairwise distinct. -/
theorem nodup_spawnedTasks_fst (rs : List PredictionResult) (g : Gender) :
    ((spawnedTasks rs g).map Prod.fst).Nodup := by
  have hsub : List.Sublist ((spawnedTasks rs g).map Prod.fst)
      (rs.enum.map Prod.fst) :=
    (List.filter_sublist _).map Prod.fst
  exact hsub.nodup (List.nodup_enum_map_fst rs)

/-- Slots of the begin phase, position-wise: the target gender's slots are
reset to loading, the others are returned as they were. -/
theorem beginResults_getElem? (g : Gender) (rs : List PredictionResult)
    (j : Nat) :
    (beginResults g rs)[j]? = rs[j]?.map fun r =>
      if r.gender = g then { r with loading := true, error := none, imageUrl := none }
      else r := by
  simp [beginResults, List.getElem?_map]

/-- A fold of resolutions whose indices all avoid slot `j` leaves slot `j`
unchanged. -/
theorem foldl_resolutions_frame
    (events : List (Nat × PredictionResult × Option String))
    (rs : List PredictionResult) (j : Nat)
    (hne : ∀ e ∈ events, e.1 ≠ j) :
    (events.foldl (fun rs e => applyResolution rs e.1 e.2.1 e.2.2) rs)[j]? =
      rs[j]? := by
  induction events generalizing rs with
  | nil => rfl
  | cons e rest ih =>
    have hj : e.1 ≠ j := hne e (List.mem_cons_self e rest)
    simp only [List.foldl_cons]
    rw [ih _ fun e' he' => hne e' (List.mem_cons_of_mem e he')]
    exact List.getElem?_set_ne hj

/-- A fold of resolutions with pairwise distinct indices writes each event's
resolved record into that event's slot. -/
theorem foldl_resolutions_getElem
    (events : List (Nat × PredictionResult × Option String)) :
    ∀ (rs : List PredictionResult) (e : Nat × PredictionResult × Option String),
      e ∈ events → ((events.map fun x => x.1).Nodup) → e.1 < rs.length →
      (events.foldl (fun rs e => applyResolution rs e.1 e.2.1 e.2.2) rs)[e.1]? =
        some (resolveTask e.2.1 e.2.2) := by
  induction events with
  | nil =>
    intro rs e he
    cases he
  | cons e' rest ih =>
    intro rs e he hnd hlen
    simp only [List.map_cons, List.nodup_cons] at hnd
    rcases List.mem_cons.mp he with heq | hmem
    · subst heq
      simp only [List.foldl_cons]
      rw [foldl_resolutions_frame rest _ e.1
        (fun e'' he'' h => hnd.1 (h ▸ List.mem_map_of_mem (fun x => x.1) he''))]
      exact List.getElem?_set_self hlen
    · simp only [List.foldl_cons]
      exact ih _ e hmem hnd.2 (by simpa [applyResolution] using hlen)

/-- An index appearing in the spawned list is in range. -/
theorem spawned_index_lt {rs : List PredictionResult} {g : Gender}
    {i : Nat} {item : PredictionResult}
    (h : (i, item) ∈ spawnedTasks rs g) : i < rs.length := by
  rcases mem_spawnedTasks.mp h with ⟨h1, _⟩
  exact (List.getElem?_eq_some_iff.mp h1).1

/-- Inversion of a successful `generatePrediction` call. -/
theorem generatePrediction_ok_inv {k : Bool} {s : AppState} {g : Gender}
    {a : AppState} {sp : List (Nat × PredictionResult)}
    (h : generatePrediction k s g = .ok (a, sp)) :
    a = { s with generatingTarget := some g, error := none,
                 results := beginResults g s.results } ∧
    sp = spawnedTasks s.results g := by
  unfold generatePrediction at h
  split at h
  · exact Except.noConfusion h
  · split at h
    · exact Except.noConfusion h
    · injection h with h'
      injection h' with h1 h2
      exact ⟨h1.symm, h2.symm⟩

/-- Inversion of a rejected `generatePrediction` call: the returned state
keeps the task records and the busy flag of the prior state. -/
theorem generatePrediction_error_frame {k : Bool} {s : AppState} {g : Gender}
    {e : GenError} {s' : AppState}
    (h : generatePrediction k s g = .error (e, s')) :
    s'.results = s.results ∧ s'.generatingTarget = s.generatingTarget := by
  unfold generatePrediction at h
  split at h
  · injection h with h'
    injection h' with he hs
    subst hs
    exact ⟨rfl, rfl⟩
  · split at h
    · injection h with h'
      injection h' with he hs
      subst hs
      exact ⟨rfl, rfl⟩
    · exact Except.noConfusion h

/-- An enabled trigger means no run is marked in flight. -/
theorem busy_none_of_enabled {g : Gender} {s : AppState}
    (h : triggerDisabled g s = false) : s.generatingTarget = none := by
  have hb : s.generatingTarget.isSome = false := by
    cases g <;>
      simp only [triggerDisabled, sonButtonDisabled, daughterButtonDisabled,
        Bool.or_eq_false_iff] at h <;>
      exact h.1.1
  cases ht : s.generatingTarget with
  | none => rfl
  | some t => rw [ht] at hb; simp at hb

/-- Both completion paths clear the loading flag. -/
theorem resolveTask_loading (item : PredictionResult) (out : Option String) :
    (resolveTask item out).loading = false := by
  cases out <;> rfl

/-- The run-tracking invariant: every loading slot belongs to the gender
currently marked busy and has an in-flight call for its index. -/
def TaskInv (s : SysState) : Prop :=
  ∀ i r, s.app.results[i]? = some r → r.loading = true →
    s.app.generatingTarget = some r.gender ∧ ∃ e ∈ s.pending, e.index = i

/-- The invariant holds in the freshly uploaded state. -/
theorem taskInv_init : TaskInv initState := by
  intro i r hget hl
  have hmem : r ∈ initialResults := List.getElem?_mem hget
  have hfalse : ∀ r' ∈ initialResults, r'.loading = false := by decide
  rw [hfalse r hmem] at hl
  cases hl

/-- The invariant is preserved by every step of the system. -/
theorem taskInv_step {k : Bool} {s s' : SysState}
    (h : Step k s s') (hinv : TaskInv s) : TaskInv s' := by
  cases h with
  | invoke _s g outs app' spawned henabled hrun =>
    obtain ⟨ha, hsp⟩ := generatePrediction_ok_inv hrun
    subst ha
    subst hsp
    intro i r hget hl
    have hget' : (beginResults g s.app.results)[i]? = some r := hget
    rw [beginResults_getElem?] at hget'
    rcases Option.map_eq_some'.mp hget' with ⟨r0, hr0, hfr⟩
    by_cases hg : r0.gender = g
    · rw [if_pos hg] at hfr
      have hrg : r.gender = g := by rw [← hfr]; exact hg
      refine ⟨?_, ?_⟩
      · show some g = some r.gender
        rw [hrg]
      · exact ⟨⟨g, i, r0, outs i⟩,
          List.mem_append_right _
            (List.mem_map_of_mem _ (mem_spawnedTasks.mpr ⟨hr0, hg⟩)), rfl⟩
    · rw [if_neg hg] at hfr
      subst hfr
      have hbusy := (hinv i r0 hr0 hl).1
      rw [busy_none_of_enabled henabled] at hbusy
      cases hbusy
  | invokeRejected _s g e app' henabled hrun =>
    obtain ⟨hres, htarget⟩ := generatePrediction_error_frame hrun
    intro i r hget hl
    have hget' : s.app.results[i]? = some r := by
      rw [← hres]; exact hget
    obtain ⟨hbusy, hpend⟩ := hinv i r hget' hl
    exact ⟨htarget.trans hbusy, hpend⟩
  | resolve app l₁ l₂ e =>
    intro i r hget hl
    by_cases hi : i = e.index
    · subst hi
      have hget' :
          (app.results.set e.index (resolveTask e.item e.out))[e.index]? =
            some r := hget
      rw [List.getElem?_set] at hget'
      rw [if_pos rfl] at hget'
      split at hget'
      · injection hget' with hr
        rw [← hr, resolveTask_loading] at hl
        cases hl
      · cases hget'
    · have hget' : app.results[i]? = some r := by
        have : (app.results.set e.index (resolveTask e.item e.out))[i]? = some r :=
          hget
        rwa [List.getElem?_set_ne (fun hh => hi hh.symm)] at this
      obtain ⟨hbusy, e', he', hei⟩ := hinv i r hget' hl
      refine ⟨hbusy, e', ?_, hei⟩
      have hne : e' ≠ e := fun hh => hi (by rw [← hei, hh])
      rcases List.mem_append.mp he' with h1 | h2
      · exact List.mem_append_left _ h1
      · rcases List.mem_cons.mp h2 with hcontra | h3
        · exact absurd hcontra hne
        · exact List.mem_append_right _ h3
  | finish app g hbusy =>
    intro i r hget hl
    obtain ⟨_, e', he', _⟩ := hinv i r hget hl
    cases he'
  | setWeight app p w hw =>
    intro i r hget hl
    exact hinv i r hget hl
  | uploadFather app p img =>
    intro i r hget hl
    exact hinv i r hget hl
  | uploadMother app p img =>
    intro i r hget hl
    exact hinv i r hget hl

/-- The invariant holds in every reachable state. -/
theorem taskInv_reach {k : Bool} {s : SysState}
    (h : Reach k initState s) : TaskInv s := by
  induction h with
  | refl => exact taskInv_init
  | tail _ hstep ih => exact taskInv_step hstep ih

/-! ### Claims -/

/-- C1.  The exclusivity invariant (at most one of imageUrl/error set outside
idle/loading) is NOT preserved across a second run for the same gender: after
a first boy run whose calls fail and a second boy run whose calls succeed,
slot 0 holds both a fresh `imageUrl` and the stale `"Failed to generate"`
error, because both resolution paths spread the captured pre-run `item`
instead of clearing the opposite field.  The record's derived status is
`failed`, so the UI keeps showing the stale error despite the successful
generation. -/
theorem c1_invariant_violated_across_runs :
    c1SecondRunState.results[0]? = some c1BadRecord ∧
    status c1BadRecord = Status.failed ∧
    c1BadRecord.imageUrl.isSome = true ∧
    c1BadRecord.error.isSome = true := by
  refine ⟨by decide, by decide, by decide, by decide⟩

/-- C2 (counterexample).  With both parents uploaded and a boy run already in
flight, invoking `generatePrediction` again for `boy` is NOT rejected: there
is no busy-flag guard, so the call proceeds, resets the boy tasks to loading
and spawns a new batch — contradicting the claimed `AlreadyRunning` rejection
without side effects. -/
theorem c2_counterexample_no_already_running :
    busyBoyState.generatingTarget = some Gender.boy ∧
    busyBoyState.fatherImg.isSome = true ∧
    busyBoyState.motherImg.isSome = true ∧
    generatePrediction true busyBoyState Gender.boy =
      .ok ({ busyBoyState with
              error := none,
              results := beginResults Gender.boy busyBoyState.results },
           spawnedTasks busyBoyState.results Gender.boy) ∧
    beginResults Gender.boy busyBoyState.results ≠ busyBoyState.results := by
  refine ⟨rfl, rfl, rfl, rfl, by decide⟩

/-- C2 (amended).  `generatePrediction` performs no busy-flag check at all:
whenever both parent payloads and the credential are present, the call
proceeds regardless of `generatingTarget` — it sets the busy flag, clears the
banner, moves the gender's three tasks to loading and spawns their calls.
Same-gender re-invocation is prevented only by the UI disabling the trigger
while busy. -/
theorem c2_same_gender_reinvocation_proceeds (s : AppState) (g : Gender)
    (hf : s.fatherImg ≠ none) (hm : s.motherImg ≠ none) :
    generatePrediction true s g =
      .ok ({ s with
              generatingTarget := some g,
              error := none,
              results := beginResults g s.results },
           spawnedTasks s.results g) := by
  simp [generatePrediction, hf, hm]

/-- C2 (witness for the amended theorem), instantiated at the busy state. -/
theorem c2_witness :
    generatePrediction true busyBoyState Gender.boy =
      .ok ({ busyBoyState with
              generatingTarget := some Gender.boy,
              error := none,
              results := beginResults Gender.boy busyBoyState.results },
           spawnedTasks busyBoyState.results Gender.boy) :=
  c2_same_gender_reinvocation_proceeds busyBoyState Gender.boy
    (by decide) (by decide)

/-- C3 (counterexample).  With both parents uploaded and a boy run in flight,
the daughter trigger is disabled too: both buttons share the predicate
`!!generatingTarget || !fatherImg || !motherImg`, so the other gender's
trigger is NOT left enabled, contradicting the claim. -/
theorem c3_counterexample_other_trigger_disabled :
    busyBoyState.fatherImg.isSome = true ∧
    busyBoyState.motherImg.isSome = true ∧
    busyBoyState.generatingTarget = some Gender.boy ∧
    daughterButtonDisabled busyBoyState = true := by
  refine ⟨rfl, rfl, rfl, by decide⟩

/-- C3 (amended).  While any run is in flight, BOTH gender triggers are
disabled: the two buttons use the same disabled predicate, which depends only
on whether some run is busy and on the presence of the parent images, never
on which gender is busy; concurrent cross-gender runs are therefore not
reachable through the UI. -/
theorem c3_both_triggers_disabled_while_busy (s : AppState) (g : Gender)
    (hbusy : s.generatingTarget = some g) :
    sonButtonDisabled s = true ∧ daughterButtonDisabled s = true ∧
    sonButtonDisabled s = daughterButtonDisabled s := by
  refine ⟨?_, ?_, rfl⟩ <;>
    simp [sonButtonDisabled, daughterButtonDisabled, hbusy]

/-- C3 (witness for the amended theorem), instantiated at the busy state. -/
theorem c3_witness :
    sonButtonDisabled busyBoyState = true ∧
    daughterButtonDisabled busyBoyState = true ∧
    sonButtonDisabled busyBoyState = daughterButtonDisabled busyBoyState :=
  c3_both_triggers_disabled_while_busy busyBoyState Gender.boy rfl

/-- C4.  Precondition checks fail fast, before any mutation: a missing parent
payload yields `missingInput`, a present pair with a missing credential
yields `missingCredential`, and in every rejected invocation the returned
state keeps the six task records and the busy flag exactly as they were
(only the error banner is set). -/
theorem c4_preconditions_fail_fast (hasKey : Bool) (s : AppState) (g : Gender) :
    ((s.fatherImg = none ∨ s.motherImg = none) →
      generatePrediction hasKey s g =
        .error (GenError.missingInput,
          { s with error := some "Please upload photos of both parents first." }))
    ∧ (s.fatherImg ≠ none → s.motherImg ≠ none → hasKey = false →
      generatePrediction hasKey s g =
        .error (GenError.missingCredential,
          { s with error := some "API Key is missing." }))
    ∧ (∀ e s', generatePrediction hasKey s g = .error (e, s') →
        s'.results = s.results ∧ s'.generatingTarget = s.generatingTarget) := by
  refine ⟨fun h => by simp [generatePrediction, h], ?_, ?_⟩
  · intro hf hm hk
    simp [generatePrediction, hf, hm, hk]
  · intro e s' h
    unfold generatePrediction at h
    split at h
    · cases h
      exact ⟨rfl, rfl⟩
    · split at h
      · cases h
        exact ⟨rfl, rfl⟩
      · cases h

/-- C4 (witness): a missing mother payload is rejected with `missingInput`,
and a missing credential with both parents present is rejected with
`missingCredential`; both leave tasks and busy flag untouched. -/
theorem c4_witness :
    generatePrediction true noMotherState Gender.boy =
      .error (GenError.missingInput,
        { noMotherState with
            error := some "Please upload photos of both parents first." }) ∧
    generatePrediction false initState.app Gender.girl =
      .error (GenError.missingCredential,
        { initState.app with error := some "API Key is missing." }) :=
  ⟨(c4_preconditions_fail_fast true noMotherState Gender.boy).1 (Or.inr rfl),
   (c4_preconditions_fail_fast false initState.app Gender.girl).2.1
     (by decide) (by decide) rfl⟩

/-- An arbitrary interleaving of boy-run completion events used to
instantiate the frame claim: ages 25, 5 and 15 settle in that order, the
age-5 call failing. -/
def c5Events : List (Nat × PredictionResult × Option String) :=
  [ (2, { gender := Gender.boy, age := 25, loading := false },
      some "data:image/png;base64,IMG"),
    (0, { gender := Gender.boy, age := 5, loading := false }, none),
    (1, { gender := Gender.boy, age := 15, loading := false },
      some "data:image/png;base64,IMG") ]

/-- C5.  A run for gender `g` never writes outside its own gender's slots:
after the begin phase and any sequence of completion events drawn from the
run's spawned tasks (in particular after any prefix of any completion
order), every slot holding a task of the other gender still holds exactly
the record it held before the run. -/
theorem c5_frame_other_gender_unchanged (s : AppState) (g : Gender)
    (events : List (Nat × PredictionResult × Option String))
    (hev : ∀ e ∈ events, ∃ item, (e.1, item) ∈ spawnedTasks s.results g)
    (j : Nat) (r : PredictionResult)
    (hj : s.results[j]? = some r) (hgen : r.gender ≠ g) :
    (runResults s g events)[j]? = some r := by
  have hne : ∀ e ∈ events, e.1 ≠ j := by
    intro e he heq
    rcases hev e he with ⟨item, hmem⟩
    rcases mem_spawnedTasks.mp hmem with ⟨hget, hg⟩
    rw [heq, hj] at hget
    cases hget
    exact hgen hg
  unfold runResults
  rw [foldl_resolutions_frame events _ j hne, beginResults_getElem?, hj]
  simp [hgen]

/-- C5 (witness): after a boy run over the interleaving `c5Events`, slot 3
(girl, age 5) is byte-for-byte the pre-run idle record. -/
theorem c5_witness :
    (runResults initState.app Gender.boy c5Events)[3]? =
      some { gender := Gender.girl, age := 5, loading := false } :=
  c5_frame_other_gender_unchanged initState.app Gender.boy c5Events
    (by
      intro e he
      simp only [c5Events, List.mem_cons, List.not_mem_nil, or_false] at he
      rcases he with rfl | rfl | rfl
      · exact ⟨{ gender := Gender.boy, age := 25, loading := false }, by decide⟩
      · exact ⟨{ gender := Gender.boy, age := 5, loading := false }, by decide⟩
      · exact ⟨{ gender := Gender.boy, age := 15, loading := false }, by decide⟩)
    3 { gender := Gender.girl, age := 5, loading := false } rfl (by decide)

/-- Outcome assignment in which only slot 1 (boy, age 15) fails. -/
def c6Outs : Nat → Option String :=
  fun i => if i = 1 then none else some "data:image/png;base64,IMG"

/-- C6.  Failure isolation: for every prior state, outcome assignment and
completion order (any permutation of the run's spawned calls), each spawned
task's final record is `resolveTask` of its own captured item and its own
outcome — independent of sibling outcomes and of the order; in particular,
from the freshly uploaded state, failing only the age-15 boy call leaves
ages 5 and 25 ready and age 15 failed for every completion order. -/
theorem c6_failure_isolation :
    (∀ (s : AppState) (g : Gender) (outs : Nat → Option String)
        (events : List (Nat × PredictionResult × Option String)),
      events.Perm ((spawnedTasks s.results g).map fun p => (p.1, p.2, outs p.1)) →
      ∀ i item, (i, item) ∈ spawnedTasks s.results g →
        (runResults s g events)[i]? = some (resolveTask item (outs i)))
    ∧ (∀ events : List (Nat × PredictionResult × Option String),
      events.Perm ((spawnedTasks initState.app.results Gender.boy).map
        fun p => (p.1, p.2, c6Outs p.1)) →
      (runResults initState.app Gender.boy events)[0]?.map status =
          some Status.ready ∧
      (runResults initState.app Gender.boy events)[1]?.map status =
          some Status.failed ∧
      (runResults initState.app Gender.boy events)[2]?.map status =
          some Status.ready) := by
  have hgen : ∀ (s : AppState) (g : Gender) (outs : Nat → Option String)
      (events : List (Nat × PredictionResult × Option String)),
      events.Perm ((spawnedTasks s.results g).map fun p => (p.1, p.2, outs p.1)) →
      ∀ i item, (i, item) ∈ spawnedTasks s.results g →
        (runResults s g events)[i]? = some (resolveTask item (outs i)) := by
    intro s g outs events hperm i item hmem
    have he : (i, item, outs i) ∈ events :=
      hperm.mem_iff.mpr (List.mem_map_of_mem _ hmem)
    have hnd : (events.map fun x => x.1).Nodup := by
      have hp :
          (events.map fun x => x.1).Perm
            (((spawnedTasks s.results g).map fun p => (p.1, p.2, outs p.1)).map
              fun x => x.1) :=
        hperm.map fun x => x.1
      rw [List.map_map] at hp
      exact hp.nodup_iff.mpr (nodup_spawnedTasks_fst s.results g)
    have hlen : i < (beginResults g s.results).length := by
      have : (beginResults g s.results).length = s.results.length := by
        simp [beginResults]
      rw [this]
      exact spawned_index_lt hmem
    exact foldl_resolutions_getElem events (beginResults g s.results)
      (i, item, outs i) he hnd hlen
  refine ⟨hgen, ?_⟩
  intro events hperm
  have h0 := hgen initState.app Gender.boy c6Outs events hperm 0
    { gender := Gender.boy, age := 5, loading := false } (by decide)
  have h1 := hgen initState.app Gender.boy c6Outs events hperm 1
    { gender := Gender.boy, age := 15, loading := false } (by decide)
  have h2 := hgen initState.app Gender.boy c6Outs events hperm 2
    { gender := Gender.boy, age := 25, loading := false } (by decide)
  refine ⟨by rw [h0]; decide, by rw [h1]; decide, by rw [h2]; decide⟩

/-- C6 (witness): the scenario evaluated at the spawn-order completion
sequence. -/
theorem c6_witness :
    (runResults initState.app Gender.boy
        ((spawnedTasks initState.app.results Gender.boy).map
          fun p => (p.1, p.2, c6Outs p.1)))[0]?.map status =
        some Status.ready ∧
    (runResults initState.app Gender.boy
        ((spawnedTasks initState.app.results Gender.boy).map
          fun p => (p.1, p.2, c6Outs p.1)))[1]?.map status =
        some Status.failed ∧
    (runResults initState.app Gender.boy
        ((spawnedTasks initState.app.results Gender.boy).map
          fun p => (p.1, p.2, c6Outs p.1)))[2]?.map status =
        some Status.ready :=
  c6_failure_isolation.2 _ (List.Perm.refl _)

/-- Fixed successful image URL used in the concrete runs below. -/
def c7Url : String := "data:image/png;base64,IMG"

/-- Outcome assignment in which every call succeeds with `c7Url`. -/
def c7Outs : Nat → Option String := fun _ => some c7Url

/-- The system state right after clicking "Generate Son" in the freshly
uploaded state (synchronous prefix committed, three calls in flight). -/
def afterInvokeState : SysState :=
  ⟨{ initState.app with
      generatingTarget := some Gender.boy,
      error := none,
      results := beginResults Gender.boy initState.app.results },
   initState.pending ++ (spawnedTasks initState.app.results Gender.boy).map
     fun p => ⟨Gender.boy, p.1, p.2, c7Outs p.1⟩⟩

/-- In-flight call record of the boy run for a given slot and age. -/
def c7Entry (i age : Nat) : PendingCall :=
  ⟨Gender.boy, i, { gender := Gender.boy, age := age, loading := false },
   some c7Url⟩

/-- The system state after the boy run's three calls have all been
reconciled but before the `Promise.allSettled` continuation has cleared the
busy flag. -/
def c7SettledState : SysState :=
  ⟨{ afterInvokeState.app with
      results := applyResolution
        (applyResolution
          (applyResolution afterInvokeState.app.results
            (c7Entry 0 5).index (c7Entry 0 5).item (c7Entry 0 5).out)
          (c7Entry 1 15).index (c7Entry 1 15).item (c7Entry 1 15).out)
        (c7Entry 2 25).index (c7Entry 2 25).item (c7Entry 2 25).out },
   []⟩

/-- C7 (counterexample).  The claimed iff fails: the state in which all
three calls of a boy run have settled but the `allSettled` continuation has
not yet cleared the busy flag is reachable, and there `generatingTarget` is
still `boy` while no task at all is loading. -/
theorem c7_counterexample_barrier_iff :
    Reach true initState c7SettledState ∧
    c7SettledState.app.generatingTarget = some Gender.boy ∧
    (c7SettledState.app.results.all fun r => !r.loading) = true := by
  refine ⟨?_, rfl, by decide⟩
  refine Relation.ReflTransGen.head
    (Step.invoke initState Gender.boy c7Outs
      { initState.app with
          generatingTarget := some Gender.boy,
          error := none,
          results := beginResults Gender.boy initState.app.results }
      (spawnedTasks initState.app.results Gender.boy) rfl rfl) ?_
  refine Relation.ReflTransGen.head
    (Step.resolve afterInvokeState.app [] [c7Entry 1 15, c7Entry 2 25]
      (c7Entry 0 5)) ?_
  refine Relation.ReflTransGen.head
    (Step.resolve _ [] [c7Entry 2 25] (c7Entry 1 15)) ?_
  exact Relation.ReflTransGen.single (Step.resolve _ [] [] (c7Entry 2 25))

/-- C7 (amended).  The direction of the barrier that the code does guarantee:
in every reachable state, any slot that is loading belongs to the gender
currently marked busy — the busy flag is never `none` (nor the other gender)
while a task of its gender is loading, because `Promise.allSettled` resumes
only after all three spawned calls have settled.  The converse of the spec's
iff fails transiently between the last settlement and the flag clear (see
the counterexample). -/
theorem c7_busy_while_loading (k : Bool) (s : SysState)
    (hreach : Reach k initState s) (i : Nat) (r : PredictionResult)
    (hget : s.app.results[i]? = some r) (hload : r.loading = true) :
    s.app.generatingTarget = some r.gender :=
  ((taskInv_reach hreach) i r hget hload).1

/-- C7 (witness for the amended theorem): in the reachable state right after
invoking the boy run, slot 0 is loading and the busy flag is `boy`. -/
theorem c7_witness :
    Reach true initState afterInvokeState ∧
    afterInvokeState.app.generatingTarget = some Gender.boy := by
  have hr : Reach true initState afterInvokeState :=
    Relation.ReflTransGen.single
      (Step.invoke initState Gender.boy c7Outs
        { initState.app with
            generatingTarget := some Gender.boy,
            error := none,
            results := beginResults Gender.boy initState.app.results }
        (spawnedTasks initState.app.results Gender.boy) rfl rfl)
  refine ⟨hr, ?_⟩
  exact c7_busy_while_loading true afterInvokeState hr 0
    { gender := Gender.boy, age := 5, loading := true } rfl rfl

/-- C8.  The instruction text is a deterministic function of the task's
(gender, age) and the blend weight captured at run start: the gender noun is
the adult term exactly for ages above 18 (so "man"/"woman" at 25 and
"boy"/"girl" at 5 and 15), the father percentage equals the weight, the
mother percentage equals its complement, and the prompt is the fixed template
instantiated with exactly these values. -/
theorem c8_instruction_build (g : Gender) (age w : Nat)
    (_hage : age = 5 ∨ age = 15 ∨ age = 25) (hw : w ≤ 100) :
    (18 < age → genderTerm g age = adultTerm g)
    ∧ (age ≤ 18 → genderTerm g age = childTerm g)
    ∧ fatherPct w = w
    ∧ (motherPct w : Int) = 100 - (w : Int)
    ∧ prompt g age w =
        promptTemplate (toString age) (genderTerm g age) (toString w)
          (toString (100 - w)) := by
  refine ⟨?_, ?_, rfl, ?_, rfl⟩
  · intro h
    cases g <;> simp [genderTerm, adultTerm, h]
  · intro h
    cases g <;> simp [genderTerm, childTerm, Nat.not_lt.mpr h]
  · simp only [motherPct]
    omega

/-- C8 (witness): the boy/age-25 instruction at weight 70 uses the adult
noun and the 70/30 split. -/
theorem c8_witness :
    (18 < 25 → genderTerm Gender.boy 25 = adultTerm Gender.boy)
    ∧ (25 ≤ 18 → genderTerm Gender.boy 25 = childTerm Gender.boy)
    ∧ fatherPct 70 = 70
    ∧ (motherPct 70 : Int) = 100 - (70 : Int)
    ∧ prompt Gender.boy 25 70 =
        promptTemplate (toString 25) (genderTerm Gender.boy 25) (toString 70)
          (toString (100 - 70)) :=
  c8_instruction_build Gender.boy 25 70 (Or.inr (Or.inr rfl)) (by decide)

/-- The scan loop extracts exactly the FIRST part carrying `inlineData`. -/
theorem findUrl_eq_findSome (parts : List ResponsePart) :
    findUrl parts =
      match parts.findSome? (fun p => p.inlineData) with
      | some d => "data:image/png;base64," ++ d.data
      | none => "" := by
  induction parts with
  | nil => rfl
  | cons p rest ih =>
    cases hp : p.inlineData with
    | some d => simp [findUrl, List.findSome?_cons, hp]
    | none => simp [findUrl, List.findSome?_cons, hp, ih]

/-- Rewrite every `inlineData` MIME type of a response through `f`. -/
def mapMimes (f : String → String) (r : GenResponse) : GenResponse :=
  ⟨r.candidates.map fun cs =>
    cs.map fun c =>
      ⟨⟨c.content.parts.map fun ps =>
        ps.map fun p => ⟨p.inlineData.map fun d => ⟨f d.mimeType, d.data⟩, p.text⟩⟩⟩⟩

/-- The URL scan never reads the parts' MIME types. -/
theorem findUrl_mapMime (f : String → String) (ps : List ResponsePart) :
    findUrl (ps.map fun p =>
      ⟨p.inlineData.map fun d => ⟨f d.mimeType, d.data⟩, p.text⟩) =
    findUrl ps := by
  induction ps with
  | nil => rfl
  | cons p rest ih =>
    cases hp : p.inlineData with
    | some d => simp [findUrl, hp]
    | none => simp [findUrl, hp, ih]

/-- Response parsing never reads the response's MIME types. -/
theorem parseImageUrl_mapMimes (f : String → String) (r : GenResponse) :
    parseImageUrl (mapMimes f r) = parseImageUrl r := by
  rcases r with ⟨_ | ⟨_ | ⟨c, cs⟩⟩⟩
  · rfl
  · rfl
  · rcases c with ⟨⟨_ | ps⟩⟩
    · rfl
    · simpa [parseImageUrl, mapMimes] using findUrl_mapMime f ps

/-- C9.  Per-task failure handling: the parser extracts the first returned
image payload (the first part with `inlineData`); a thrown client error or a
response without an image payload both yield the failure outcome; and every
failure resolves the task through the catch path, which marks it failed with
the fixed generic message "Failed to generate" — the upstream error message
`msg` is never stored in the task. -/
theorem c9_failure_resolution (item : PredictionResult) (c : ClientOutcome)
    (parts : List ResponsePart) :
    (findUrl parts =
      match parts.findSome? (fun p => p.inlineData) with
      | some d => "data:image/png;base64," ++ d.data
      | none => "")
    ∧ (variationOutcome c = none →
        resolveTask item (variationOutcome c) = resolveFail item ∧
        (resolveFail item).error = some "Failed to generate" ∧
        status (resolveFail item) = Status.failed)
    ∧ (∀ msg, c = .err msg → variationOutcome c = none)
    ∧ (∀ r, c = .ok r → parseImageUrl r = "" → variationOutcome c = none) := by
  refine ⟨findUrl_eq_findSome parts, ?_, ?_, ?_⟩
  · intro h
    rw [h]
    exact ⟨rfl, rfl, rfl⟩
  · intro msg h
    rw [h]
    rfl
  · intro r h hurl
    rw [h]
    simp [variationOutcome, hurl]

/-- C9 (witness): a client error ("network timeout") resolves the task as
failed with the generic message, not the upstream text. -/
theorem c9_witness :
    resolveTask { gender := Gender.boy, age := 5, loading := false }
        (variationOutcome (ClientOutcome.err "network timeout")) =
      resolveFail { gender := Gender.boy, age := 5, loading := false } ∧
    (resolveFail
        { gender := Gender.boy, age := 5, loading := false }).error =
      some "Failed to generate" ∧
    status (resolveFail { gender := Gender.boy, age := 5, loading := false }) =
      Status.failed :=
  (c9_failure_resolution { gender := Gender.boy, age := 5, loading := false }
    (ClientOutcome.err "network timeout") []).2.1 rfl

/-- C10.  Whenever a task resolves successfully, the stored payload is the
hardcoded `data:image/png;base64,` prefix followed by the first `inlineData`
part's data — the response's own MIME type is ignored entirely (parsing is
invariant under rewriting it) — and the payload is non-empty even when the
returned base64 data is the empty string. -/
theorem c10_ready_payload_shape (item : PredictionResult) (r : GenResponse)
    (u : String) (h : variationOutcome (.ok r) = some u) :
    (resolveTask item (some u)).imageUrl = some u ∧
    u ≠ "" ∧
    (∃ c rest parts d,
      r.candidates = some (c :: rest) ∧
      c.content.parts = some parts ∧
      (parts.findSome? fun p => p.inlineData) = some d ∧
      u = "data:image/png;base64," ++ d.data) ∧
    (∀ f, parseImageUrl (mapMimes f r) = parseImageUrl r) := by
  obtain ⟨hne, hu⟩ : parseImageUrl r ≠ "" ∧ u = parseImageUrl r := by
    by_cases hurl : parseImageUrl r = ""
    · exfalso
      have hnone : variationOutcome (.ok r) = none := by
        simp [variationOutcome, hurl]
      rw [hnone] at h
      cases h
    · have hsome : variationOutcome (.ok r) = some (parseImageUrl r) := by
        simp [variationOutcome, hurl]
      rw [hsome] at h
      injection h with h'
      exact ⟨hurl, h'.symm⟩
  refine ⟨rfl, hu ▸ hne, ?_, fun f => parseImageUrl_mapMimes f r⟩
  rcases r with ⟨_ | ⟨_ | ⟨c, rest⟩⟩⟩
  · exact absurd rfl hne
  · exact absurd rfl hne
  · rcases c with ⟨⟨cparts⟩⟩
    rcases cparts with _ | parts
    · exact absurd rfl hne
    · have hu' : u = findUrl parts := hu
      have hne' : findUrl parts ≠ "" := hne
      rw [findUrl_eq_findSome parts] at hu' hne'
      rcases hd : parts.findSome? (fun p => p.inlineData) with _ | d
      · rw [hd] at hne'
        exact absurd rfl hne'
      · rw [hd] at hu'
        exact ⟨⟨⟨some parts⟩⟩, rest, parts, d, rfl, rfl, hd, hu'⟩

/-- Concrete response whose only inline part has MIME `image/jpeg` and EMPTY
base64 data. -/
def emptyDataResponse : GenResponse :=
  ⟨some [⟨⟨some [⟨some ⟨"image/jpeg", ""⟩, none⟩]⟩⟩]⟩

/-- C10 (witness): with empty returned data the ready payload is exactly the
non-empty png prefix, despite the `image/jpeg` MIME of the response. -/
theorem c10_witness :
    (resolveTask { gender := Gender.girl, age := 5, loading := false }
        (some "data:image/png;base64,")).imageUrl =
      some "data:image/png;base64," ∧
    "data:image/png;base64," ≠ "" :=
  ⟨(c10_ready_payload_shape
      { gender := Gender.girl, age := 5, loading := false }
      emptyDataResponse "data:image/png;base64," (by decide)).1,
   (c10_ready_payload_shape
      { gender := Gender.girl, age := 5, loading := false }
      emptyDataResponse "data:image/png;base64," (by decide)).2.1⟩

end ChildFace
